import Mathlib

/-!
Verification of the Production-Tracking entity model (`models.py`).

The SQLAlchemy declarative models are shallowly embedded: each mapped class
becomes a structure of its columns (foreign-key columns are nullable in the
source, hence `Option`), the session/table state becomes a `DB` record of
lookup functions keyed by primary key, and each relationship or derived
`@property` becomes a function over `DB`.  Timestamps are abstracted to `Nat`.
Operations that the repository performs outside this file (writes, validation,
the live/hop-indexed resolver walks) are modelled from the spec and marked as
such in their doc comments.
-/

namespace PT

/-- `TimestampMixin` of models.py: audit columns shared by every entity. -/
structure TimestampMixin where
  created_at : Nat
  updated_at : Nat
  deleted_at : Option Nat
  is_deleted : Bool
deriving DecidableEq

/-- `Plant` (models.py): root of the hierarchy. -/
structure Plant extends TimestampMixin where
  id : Nat
  name : String
deriving DecidableEq

/-- `Zone` (models.py): `plant_id` FK to plant. -/
structure Zone extends TimestampMixin where
  id : Nat
  name : String
  plant_id : Option Nat
deriving DecidableEq

/-- `Loop` (models.py): `zone_id` FK to zone. -/
structure Loop extends TimestampMixin where
  id : Nat
  name : String
  zone_id : Option Nat
deriving DecidableEq

/-- `Line` (models.py): `loop_id` FK to loop. -/
structure Line extends TimestampMixin where
  id : Nat
  name : String
  loop_id : Option Nat
deriving DecidableEq

/-- `Cell` (models.py): `line_id` FK to line. -/
structure Cell extends TimestampMixin where
  id : Nat
  name : String
  line_id : Option Nat
deriving DecidableEq

/-- `Member` (models.py): keyed by `user_id`, `cell_id` FK to cell. -/
structure Member extends TimestampMixin where
  user_id : String
  cell_id : Option Nat
deriving DecidableEq

/-- `Production` (models.py): numeric counters plus FKs; `hour` is the
enum's literal string value. -/
structure Production extends TimestampMixin where
  id : Nat
  plan : Int
  achievement : Int
  scraps : Int
  defects : Int
  flash : Int
  hour : String
  line_id : Option Nat
  shift_id : Option Nat
  planner_id : Option String
  team_leader_id : Option String
deriving DecidableEq

/-- `Loss` (models.py): `production_id` FK to production. -/
structure Loss extends TimestampMixin where
  id : Nat
  amount : Int
  loss_reason_id : Option Nat
  production_id : Option Nat
deriving DecidableEq

/-- `Attendance` (models.py): `member_id` FK to member, `working_cell_id`
FK to cell, the two independent location dimensions. -/
structure Attendance extends TimestampMixin where
  id : Nat
  member_id : Option String
  attendance_type_id : Option Nat
  shift_id : Option Nat
  working_cell_id : Option Nat
  team_leader_id : Option String
deriving DecidableEq

/-- `Shift` (models.py): `date` abstracted to `Nat`, `day_night` and `shift`
holding the enums' literal string values, FKs to plant and planner. -/
structure Shift extends TimestampMixin where
  id : Nat
  date : Nat
  day_night : String
  shift : String
  plant_id : Option Nat
  planner_id : Option String
deriving DecidableEq

/-- `Planner` (models.py): keyed by `user_id`, `plant_id` FK to plant. -/
structure Planner extends TimestampMixin where
  user_id : String
  plant_id : Option Nat
deriving DecidableEq

/-- `LossReason` (models.py): reference data, not anchored in the hierarchy. -/
structure LossReason extends TimestampMixin where
  id : Nat
  title : String
  department : String
deriving DecidableEq

/-- The persisted table state: each relationship lookup is a retrieval by
primary key, soft-deleted rows included (SQLAlchemy applies no filter). -/
structure DB where
  plants : Nat → Option Plant
  zones : Nat → Option Zone
  loops : Nat → Option Loop
  lines : Nat → Option Line
  cells : Nat → Option Cell
  members : String → Option Member
  productions : Nat → Option Production
  shifts : Nat → Option Shift
  planners : String → Option Planner
  loss_reasons : Nat → Option LossReason
  losses : Nat → Option Loss

/-- Relationship `Zone.plant`: FK lookup of `plant_id`. -/
def Zone.plant (db : DB) (z : Zone) : Option Plant :=
  z.plant_id.bind db.plants

/-- Relationship `Loop.zone`: FK lookup of `zone_id`. -/
def Loop.zone (db : DB) (lp : Loop) : Option Zone :=
  lp.zone_id.bind db.zones

/-- `Loop.plant` property: `self.zone.plant if self.zone else None`. -/
def Loop.plant (db : DB) (lp : Loop) : Option Plant :=
  match lp.zone db with
  | some z => z.plant db
  | none => none

/-- Relationship `Line.loop`: FK lookup of `loop_id`. -/
def Line.loop (db : DB) (l : Line) : Option Loop :=
  l.loop_id.bind db.loops

/-- `Line.zone` property: `self.loop.zone if self.loop else None`. -/
def Line.zone (db : DB) (l : Line) : Option Zone :=
  match l.loop db with
  | some lp => lp.zone db
  | none => none

/-- `Line.plant` property:
`self.loop.zone.plant if self.loop and self.loop.zone else None`. -/
def Line.plant (db : DB) (l : Line) : Option Plant :=
  match l.loop db with
  | some lp =>
    match lp.zone db with
    | some z => z.plant db
    | none => none
  | none => none

/-- Relationship `Cell.line`: FK lookup of `line_id`. -/
def Cell.line (db : DB) (c : Cell) : Option Line :=
  c.line_id.bind db.lines

/-- `Cell.loop` property: `self.line.loop if self.line else None`. -/
def Cell.loop (db : DB) (c : Cell) : Option Loop :=
  match c.line db with
  | some l => l.loop db
  | none => none

/-- `Cell.zone` property:
`self.line.loop.zone if self.line and self.line.loop else None`. -/
def Cell.zone (db : DB) (c : Cell) : Option Zone :=
  match c.line db with
  | some l =>
    match l.loop db with
    | some lp => lp.zone db
    | none => none
  | none => none

/-- `Cell.plant` property: `self.line.loop.zone.plant if self.line and
self.line.loop and self.line.loop.zone else None`. -/
def Cell.plant (db : DB) (c : Cell) : Option Plant :=
  match c.line db with
  | some l =>
    match l.loop db with
    | some lp =>
      match lp.zone db with
      | some z => z.plant db
      | none => none
    | none => none
  | none => none

/-- Relationship `Member.cell`: FK lookup of `cell_id`. -/
def Member.cell (db : DB) (m : Member) : Option Cell :=
  m.cell_id.bind db.cells

/-- `Member.line` property: `self.cell.line if self.cell else None`. -/
def Member.line (db : DB) (m : Member) : Option Line :=
  match m.cell db with
  | some c => c.line db
  | none => none

/-- `Member.loop` property:
`self.cell.line.loop if self.cell and self.cell.line else None`. -/
def Member.loop (db : DB) (m : Member) : Option Loop :=
  match m.cell db with
  | some c =>
    match c.line db with
    | some l => l.loop db
    | none => none
  | none => none

/-- `Member.zone` property: guarded three-hop chain of models.py. -/
def Member.zone (db : DB) (m : Member) : Option Zone :=
  match m.cell db with
  | some c =>
    match c.line db with
    | some l =>
      match l.loop db with
      | some lp => lp.zone db
      | none => none
    | none => none
  | none => none

/-- `Member.plant` property: guarded four-hop chain of models.py. -/
def Member.plant (db : DB) (m : Member) : Option Plant :=
  match m.cell db with
  | some c =>
    match c.line db with
    | some l =>
      match l.loop db with
      | some lp =>
        match lp.zone db with
        | some z => z.plant db
        | none => none
      | none => none
    | none => none
  | none => none

/-- Relationship `Production.line`: FK lookup of `line_id`. -/
def Production.line (db : DB) (pr : Production) : Option Line :=
  pr.line_id.bind db.lines

/-- `Production.loop` property: `self.line.loop if self.line else None`. -/
def Production.loop (db : DB) (pr : Production) : Option Loop :=
  match pr.line db with
  | some l => l.loop db
  | none => none

/-- `Production.zone` property: guarded chain of models.py. -/
def Production.zone (db : DB) (pr : Production) : Option Zone :=
  match pr.line db with
  | some l =>
    match l.loop db with
    | some lp => lp.zone db
    | none => none
  | none => none

/-- `Production.plant` property: `self.line.loop.zone.plant if self.line
and self.line.loop and self.line.loop.zone else None`. -/
def Production.plant (db : DB) (pr : Production) : Option Plant :=
  match pr.line db with
  | some l =>
    match l.loop db with
    | some lp =>
      match lp.zone db with
      | some z => z.plant db
      | none => none
    | none => none
  | none => none

/-- Relationship `Loss.production`: FK lookup of `production_id`. -/
def Loss.production (db : DB) (x : Loss) : Option Production :=
  x.production_id.bind db.productions

/-- `Loss.line` property: `self.production.line if self.production else None`. -/
def Loss.line (db : DB) (x : Loss) : Option Line :=
  match x.production db with
  | some pr => pr.line db
  | none => none

/-- `Loss.loop` property: guarded chain of models.py. -/
def Loss.loop (db : DB) (x : Loss) : Option Loop :=
  match x.production db with
  | some pr =>
    match pr.line db with
    | some l => l.loop db
    | none => none
  | none => none

/-- `Loss.zone` property: guarded chain of models.py. -/
def Loss.zone (db : DB) (x : Loss) : Option Zone :=
  match x.production db with
  | some pr =>
    match pr.line db with
    | some l =>
      match l.loop db with
      | some lp => lp.zone db
      | none => none
    | none => none
  | none => none

/-- `Loss.plant` property: `self.production.line.loop.zone.plant if
self.production and self.production.line and self.production.line.loop and
self.production.line.loop.zone else None`. -/
def Loss.plant (db : DB) (x : Loss) : Option Plant :=
  match x.production db with
  | some pr =>
    match pr.line db with
    | some l =>
      match l.loop db with
      | some lp =>
        match lp.zone db with
        | some z => z.plant db
        | none => none
      | none => none
    | none => none
  | none => none

/-- Relationship `Attendance.member`: FK lookup of `member_id`. -/
def Attendance.member (db : DB) (a : Attendance) : Option Member :=
  a.member_id.bind db.members

/-- Relationship `Attendance.working_cell`: FK lookup of `working_cell_id`. -/
def Attendance.working_cell (db : DB) (a : Attendance) : Option Cell :=
  a.working_cell_id.bind db.cells

/-- `Attendance.working_line` property:
`self.working_cell.line if self.working_cell else None`. -/
def Attendance.working_line (db : DB) (a : Attendance) : Option Line :=
  match a.working_cell db with
  | some c => c.line db
  | none => none

/-- `Attendance.working_loop` property: guarded chain of models.py. -/
def Attendance.working_loop (db : DB) (a : Attendance) : Option Loop :=
  match a.working_cell db with
  | some c =>
    match c.line db with
    | some l => l.loop db
    | none => none
  | none => none

/-- `Attendance.working_zone` property: guarded chain of models.py. -/
def Attendance.working_zone (db : DB) (a : Attendance) : Option Zone :=
  match a.working_cell db with
  | some c =>
    match c.line db with
    | some l =>
      match l.loop db with
      | some lp => lp.zone db
      | none => none
    | none => none
  | none => none

/-- `Attendance.working_plant` property: `self.working_cell.line.loop.zone.plant`
behind the four null guards of models.py. -/
def Attendance.working_plant (db : DB) (a : Attendance) : Option Plant :=
  match a.working_cell db with
  | some c =>
    match c.line db with
    | some l =>
      match l.loop db with
      | some lp =>
        match lp.zone db with
        | some z => z.plant db
        | none => none
      | none => none
    | none => none
  | none => none

/-- `Attendance.member_cell` property: `self.member.cell if self.member else None`. -/
def Attendance.member_cell (db : DB) (a : Attendance) : Option Cell :=
  match a.member db with
  | some m => m.cell db
  | none => none

/-- `Attendance.member_line` property: guarded chain of models.py. -/
def Attendance.member_line (db : DB) (a : Attendance) : Option Line :=
  match a.member db with
  | some m =>
    match m.cell db with
    | some c => c.line db
    | none => none
  | none => none

/-- `Attendance.member_loop` property: guarded chain of models.py. -/
def Attendance.member_loop (db : DB) (a : Attendance) : Option Loop :=
  match a.member db with
  | some m =>
    match m.cell db with
    | some c =>
      match c.line db with
      | some l => l.loop db
      | none => none
    | none => none
  | none => none

/-- `Attendance.member_zone` property: guarded chain of models.py. -/
def Attendance.member_zone (db : DB) (a : Attendance) : Option Zone :=
  match a.member db with
  | some m =>
    match m.cell db with
    | some c =>
      match c.line db with
      | some l =>
        match l.loop db with
        | some lp => lp.zone db
        | none => none
      | none => none
    | none => none
  | none => none

/-- `Attendance.member_plant` property: `self.member.cell.line.loop.zone.plant`
behind the five null guards of models.py. -/
def Attendance.member_plant (db : DB) (a : Attendance) : Option Plant :=
  match a.member db with
  | some m =>
    match m.cell db with
    | some c =>
      match c.line db with
      | some l =>
        match l.loop db with
        | some lp =>
          match lp.zone db with
          | some z => z.plant db
          | none => none
        | none => none
      | none => none
    | none => none
  | none => none

/-- Modelled from the spec (§4.1, absent from src/models.py which only
declares the columns): `softDelete()` on the audit fields sets
`is_deleted=true` and `deleted_at` to the current time exactly once; calling
it on an already-deleted entity is a no-op (the idempotent policy, applied
uniformly to every entity type through this one shared mixin operation). -/
def softDeleteTS (t : Nat) (ts : TimestampMixin) : TimestampMixin :=
  if ts.is_deleted then ts
  else { ts with is_deleted := true, deleted_at := some t, updated_at := t }

/-- Modelled from the spec (§4.2): `softDelete()` on a Loop row. -/
def Loop.softDelete (t : Nat) (lp : Loop) : Loop :=
  { lp with toTimestampMixin := softDeleteTS t lp.toTimestampMixin }

/-- Point update of a keyed table. -/
def updAt {β : Type} (f : Nat → Option β) (i : Nat) (v : β) : Nat → Option β :=
  fun j => if j = i then some v else f j

/-- Modelled from the spec (§4.2): soft-delete the Loop row with key `i`
in the store; every other row is untouched. -/
def softDeleteLoopAt (db : DB) (t : Nat) (i : Nat) : DB :=
  match db.loops i with
  | some lp => { db with loops := updAt db.loops i (lp.softDelete t) }
  | none => db

/-- Modelled from the spec (§4.2): `reparent(newParentRef)` on the Zone row
with key `zid`: only that Zone's `plant_id` (and `updated_at`) change. -/
def reparentZoneRow (t : Nat) (newPid : Nat) (z : Zone) : Zone :=
  { z with plant_id := some newPid,
           toTimestampMixin := { z.toTimestampMixin with updated_at := t } }

/-- Modelled from the spec (§4.2): `reparent(newParentRef)` applied to the
Zone row with key `zid` in the store; every other row is untouched. -/
def reparentZoneAt (db : DB) (t : Nat) (zid : Nat) (newPid : Nat) : DB :=
  match db.zones zid with
  | some z => { db with zones := updAt db.zones zid (reparentZoneRow t newPid z) }
  | none => db

/-- Result of the live ancestry walk: the ancestor, or the 1-based hop index
at which resolution stopped. -/
inductive WalkResult (α : Type) where
| resolved : α → WalkResult α
| unresolvedAt : Nat → WalkResult α
deriving DecidableEq

/-- Modelled from the spec (§4.5, the Resolver's live walk, absent from
src/models.py): walk Cell→Line→Loop→Zone→Plant (hops 1..4), stopping with
`unresolvedAt k` at the first hop whose reference is null or whose entity is
marked deleted. -/
def Cell.livePlant (db : DB) (c : Cell) : WalkResult Plant :=
  match c.line db with
  | none => WalkResult.unresolvedAt 1
  | some l =>
    if l.is_deleted then WalkResult.unresolvedAt 1
    else
      match l.loop db with
      | none => WalkResult.unresolvedAt 2
      | some lp =>
        if lp.is_deleted then WalkResult.unresolvedAt 2
        else
          match lp.zone db with
          | none => WalkResult.unresolvedAt 3
          | some z =>
            if z.is_deleted then WalkResult.unresolvedAt 3
            else
              match z.plant db with
              | none => WalkResult.unresolvedAt 4
              | some p =>
                if p.is_deleted then WalkResult.unresolvedAt 4
                else WalkResult.resolved p

/-- Modelled from the spec (§4.1/§6): the effect of one write operation on
an entity's audit fields.  `touch` is any field update, rename or reparent
(refreshes `updated_at`); `softDel` is `softDelete()`. -/
inductive AuditOp where
| touch : Nat → AuditOp
| softDel : Nat → AuditOp

/-- Apply one audit-relevant write operation. -/
def applyAuditOp (m : TimestampMixin) : AuditOp → TimestampMixin
| AuditOp.touch t => { m with updated_at := t }
| AuditOp.softDel t => softDeleteTS t m

/-- Apply a sequence of write operations in order. -/
def applyAuditOps (m : TimestampMixin) : List AuditOp → TimestampMixin
| [] => m
| op :: ops => applyAuditOps (applyAuditOp m op) ops

/-- Modelled from the spec (§4.1): audit fields of a freshly constructed
entity: `created_at`/`updated_at` now, not deleted. -/
def newTS (t : Nat) : TimestampMixin :=
  ⟨t, t, none, false⟩

/-- The audit invariant of the spec (§3): `is_deleted` iff `deleted_at` set. -/
def auditOk (m : TimestampMixin) : Prop :=
  m.is_deleted = true ↔ m.deleted_at ≠ none

instance (m : TimestampMixin) : Decidable (auditOk m) := by
  unfold auditOk
  infer_instance

/-- Modelled from the spec (§7): the validation-failure taxonomy reported
by creation. -/
inductive ValidationFailure where
| missingParent : ValidationFailure
| unknownParent : ValidationFailure
| deletedParent : ValidationFailure
| negativeField : ValidationFailure
| invalidEnumValue : ValidationFailure
deriving DecidableEq

/-- The twelve fixed hour-of-shift slots, the literal string values of the
`Hour` enum in models.py. -/
def hourSlots : List String :=
  ["HOUR-01", "HOUR-02", "HOUR-03", "HOUR-04", "HOUR-05", "HOUR-06",
   "HOUR-07", "HOUR-08", "HOUR-09", "HOUR-10", "HOUR-11", "HOUR-12"]

/-- Modelled from the spec (§4.2/§4.4): validation of one required
parent/foreign reference at creation time.  `none` when the reference is
present, resolves to a stored row and that row is not soft-deleted;
otherwise the reported failure. -/
def refFailure {κ β : Type} (tab : κ → Option β) (del : β → Bool)
    (r : Option κ) : Option ValidationFailure :=
  match r with
  | none => some ValidationFailure.missingParent
  | some k =>
    match tab k with
    | none => some ValidationFailure.unknownParent
    | some v =>
      if del v then some ValidationFailure.deletedParent else none

/-- Modelled from the spec (§4.2, absent from src/models.py):
`create(name, parentRef)` for a Zone: the parent reference must be present,
must resolve to an existing Plant, and that Plant must not be soft-deleted;
otherwise the reported failure, and no row is inserted. -/
def createZone (db : DB) (t : Nat) (i : Nat) (nm : String) (pid : Option Nat) :
    Except ValidationFailure DB :=
  match pid with
  | none => Except.error ValidationFailure.missingParent
  | some p =>
    match db.plants p with
    | none => Except.error ValidationFailure.unknownParent
    | some pl =>
      if pl.is_deleted then Except.error ValidationFailure.deletedParent
      else Except.ok { db with zones := updAt db.zones i ⟨newTS t, i, nm, some p⟩ }

/-- Modelled from the spec (§4.4, absent from src/models.py): creation of a
Production.  The numeric counters must be non-negative, `hour` must be one
of the twelve fixed slots, and the required Line, Shift and Planner
references must each be present, existing and non-deleted; otherwise the
reported failure and no row.  The TeamLeader reference is the spec's one
optional reference on Production and is stored as given. -/
def createProduction (db : DB) (t : Nat) (i : Nat)
    (plan achievement scraps defects flash : Int) (hr : String)
    (lid : Option Nat) (sid : Option Nat) (plid : Option String)
    (tlid : Option String) : Except ValidationFailure DB :=
  if plan < 0 || achievement < 0 || scraps < 0 || defects < 0 || flash < 0 then
    Except.error ValidationFailure.negativeField
  else if hourSlots.contains hr then
    match refFailure db.lines (fun l => l.is_deleted) lid with
    | some e => Except.error e
    | none =>
      match refFailure db.shifts (fun s => s.is_deleted) sid with
      | some e => Except.error e
      | none =>
        match refFailure db.planners (fun pl => pl.is_deleted) plid with
        | some e => Except.error e
        | none =>
          Except.ok
            { db with productions := updAt db.productions i ⟨newTS t, i, plan, achievement, scraps, defects, flash, hr, lid, sid, plid, tlid⟩ }
  else Except.error ValidationFailure.invalidEnumValue

/-- Modelled from the spec (§4.4, absent from src/models.py): creation of a
Loss.  The amount must be non-negative and the required Production and
LossReason references must each be present, existing and non-deleted;
otherwise the reported failure and no row. -/
def createLoss (db : DB) (t : Nat) (i : Nat) (amount : Int)
    (reasonId : Option Nat) (prodId : Option Nat) :
    Except ValidationFailure DB :=
  if amount < 0 then Except.error ValidationFailure.negativeField
  else
    match refFailure db.productions (fun pr => pr.is_deleted) prodId with
    | some e => Except.error e
    | none =>
      match refFailure db.loss_reasons (fun r => r.is_deleted) reasonId with
      | some e => Except.error e
      | none =>
        Except.ok
          { db with losses := updAt db.losses i ⟨newTS t, i, amount, reasonId, prodId⟩ }

/-- Resolution outcome of the hop-indexed walk (spec §7): the ancestor, the
ordinary `unresolvedAncestry` at a hop, or an `integrityViolation` carrying
the hop index. -/
inductive ResolveOutcome (α : Type) where
| resolved : α → ResolveOutcome α
| unresolvedAncestry : Nat → ResolveOutcome α
| integrityViolation : Nat → ResolveOutcome α
deriving DecidableEq

/-- Modelled from the spec (§4.5/§7, absent from src/models.py): the
hop-indexed walk Loss→Production→Line→Loop→Zone→Plant (hops 1..5).  Every
reference on this chain is mandatory, so a null reference found at hop `k`
is reported as `integrityViolation k`; a reference that does not resolve to
a stored row ends the chain as the ordinary `unresolvedAncestry k`. -/
def Loss.plantResolve (db : DB) (x : Loss) : ResolveOutcome Plant :=
  match x.production_id with
  | none => ResolveOutcome.integrityViolation 1
  | some pid =>
    match db.productions pid with
    | none => ResolveOutcome.unresolvedAncestry 1
    | some pr =>
      match pr.line_id with
      | none => ResolveOutcome.integrityViolation 2
      | some li =>
        match db.lines li with
        | none => ResolveOutcome.unresolvedAncestry 2
        | some l =>
          match l.loop_id with
          | none => ResolveOutcome.integrityViolation 3
          | some lpi =>
            match db.loops lpi with
            | none => ResolveOutcome.unresolvedAncestry 3
            | some lp =>
              match lp.zone_id with
              | none => ResolveOutcome.integrityViolation 4
              | some zi =>
                match db.zones zi with
                | none => ResolveOutcome.unresolvedAncestry 4
                | some z =>
                  match z.plant_id with
                  | none => ResolveOutcome.integrityViolation 5
                  | some pli =>
                    match db.plants pli with
                    | none => ResolveOutcome.unresolvedAncestry 5
                    | some p => ResolveOutcome.resolved p

/-- A two-row table keyed 1 and 2. -/
def tbl2 {β : Type} (v1 v2 : β) : Nat → Option β :=
  fun i => if i = 1 then some v1 else if i = 2 then some v2 else none

/-- Live (non-deleted) audit fields used by the concrete scenarios. -/
def tsLive : TimestampMixin := ⟨0, 0, none, false⟩

def plantOne : Plant := ⟨tsLive, 1, "P1"⟩

def plantTwo : Plant := ⟨tsLive, 2, "P2"⟩

def zoneOne : Zone := ⟨tsLive, 1, "Z1", some 1⟩

def zoneTwo : Zone := ⟨tsLive, 2, "Z2", some 2⟩

def loopOne : Loop := ⟨tsLive, 1, "LP1", some 1⟩

def loopTwo : Loop := ⟨tsLive, 2, "LP2", some 2⟩

def lineOne : Line := ⟨tsLive, 1, "LN1", some 1⟩

def lineTwo : Line := ⟨tsLive, 2, "LN2", some 2⟩

def cellOne : Cell := ⟨tsLive, 1, "C1", some 1⟩

def cellTwo : Cell := ⟨tsLive, 2, "C2", some 2⟩

def memberOne : Member := ⟨tsLive, "M1", some 1⟩

/-- Concrete store with two disjoint full chains:
cell 1 → line 1 → loop 1 → zone 1 → plant 1, and likewise with key 2. -/
def dbW : DB :=
  { plants := tbl2 plantOne plantTwo,
    zones := tbl2 zoneOne zoneTwo,
    loops := tbl2 loopOne loopTwo,
    lines := tbl2 lineOne lineTwo,
    cells := tbl2 cellOne cellTwo,
    members := fun s => if s = "M1" then some memberOne else none,
    productions := fun _ => none,
    shifts := fun _ => none,
    planners := fun _ => none,
    loss_reasons := fun _ => none,
    losses := fun _ => none }

/-- Attendance of member M1 (home cell 1) working in cell 2. -/
def attW : Attendance := ⟨tsLive, 1, some "M1", none, none, some 2, none⟩

/-- Attendance with the same working cell as `attW` but no member. -/
def attV : Attendance := ⟨tsLive, 2, none, none, none, some 2, none⟩

/-- A loss whose mandatory production reference is null. -/
def lossNoProd : Loss := ⟨tsLive, 7, 5, none, none⟩

/-- C10: multi-hop derived ancestry properties compose hop-by-hop: for every
database state, `Cell.plant` equals one `line` hop followed by `Line.plant`,
`Loss.plant` equals one `production` hop followed by `Production.plant`, and
`Attendance.working_plant` equals one `working_cell` hop followed by
`Cell.plant`, each yielding `none` when the first hop is null. -/
theorem c10_hop_composition :
    ∀ db : DB,
      (∀ c : Cell, Cell.plant db c =
        match Cell.line db c with
        | some l => Line.plant db l
        | none => none) ∧
      (∀ x : Loss, Loss.plant db x =
        match Loss.production db x with
        | some pr => Production.plant db pr
        | none => none) ∧
      (∀ a : Attendance, Attendance.working_plant db a =
        match Attendance.working_cell db a with
        | some c => Cell.plant db c
        | none => none) := by
  intro db
  refine ⟨?_, ?_, ?_⟩
  · intro c
    cases hl : Cell.line db c <;> simp [Cell.plant, Line.plant, hl]
  · intro x
    cases hp : Loss.production db x <;> simp [Loss.plant, Production.plant, hp]
  · intro a
    cases hc : Attendance.working_cell db a <;>
      simp [Attendance.working_plant, Cell.plant, hc]

/-- C1: each derived ancestry property is a total function of the state that
returns either `none` (an explicit unresolved result) or the very ancestor
entity reached by following the stored references hop by hop — it cannot
raise, and a `some` answer is never a fabricated default.  Shown for
`Cell.plant`, `Loss.plant`, `Member.plant` and `Attendance.working_plant`. -/
theorem c1_ancestry_total_or_unresolved :
    ∀ db : DB,
      (∀ c : Cell, Cell.plant db c = none ∨
        ∃ l lp z p, Cell.line db c = some l ∧ Line.loop db l = some lp ∧
          Loop.zone db lp = some z ∧ Zone.plant db z = some p ∧
          Cell.plant db c = some p) ∧
      (∀ x : Loss, Loss.plant db x = none ∨
        ∃ pr l lp z p, Loss.production db x = some pr ∧
          Production.line db pr = some l ∧ Line.loop db l = some lp ∧
          Loop.zone db lp = some z ∧ Zone.plant db z = some p ∧
          Loss.plant db x = some p) ∧
      (∀ m : Member, Member.plant db m = none ∨
        ∃ c l lp z p, Member.cell db m = some c ∧ Cell.line db c = some l ∧
          Line.loop db l = some lp ∧ Loop.zone db lp = some z ∧
          Zone.plant db z = some p ∧ Member.plant db m = some p) ∧
      (∀ a : Attendance, Attendance.working_plant db a = none ∨
        ∃ c l lp z p, Attendance.working_cell db a = some c ∧
          Cell.line db c = some l ∧ Line.loop db l = some lp ∧
          Loop.zone db lp = some z ∧ Zone.plant db z = some p ∧
          Attendance.working_plant db a = some p) := by
  intro db
  refine ⟨?_, ?_, ?_, ?_⟩
  · intro c
    rcases hl : Cell.line db c with _ | l
    · exact Or.inl (by simp [Cell.plant, hl])
    rcases hlp : Line.loop db l with _ | lp
    · exact Or.inl (by simp [Cell.plant, hl, hlp])
    rcases hz : Loop.zone db lp with _ | z
    · exact Or.inl (by simp [Cell.plant, hl, hlp, hz])
    rcases hp : Zone.plant db z with _ | p
    · exact Or.inl (by simp [Cell.plant, hl, hlp, hz, hp])
    exact Or.inr ⟨l, lp, z, p, rfl, hlp, hz, hp, by simp [Cell.plant, hl, hlp, hz, hp]⟩
  · intro x
    rcases hpr : Loss.production db x with _ | pr
    · exact Or.inl (by simp [Loss.plant, hpr])
    rcases hl : Production.line db pr with _ | l
    · exact Or.inl (by simp [Loss.plant, hpr, hl])
    rcases hlp : Line.loop db l with _ | lp
    · exact Or.inl (by simp [Loss.plant, hpr, hl, hlp])
    rcases hz : Loop.zone db lp with _ | z
    · exact Or.inl (by simp [Loss.plant, hpr, hl, hlp, hz])
    rcases hp : Zone.plant db z with _ | p
    · exact Or.inl (by simp [Loss.plant, hpr, hl, hlp, hz, hp])
    exact Or.inr ⟨pr, l, lp, z, p, rfl, hl, hlp, hz, hp,
      by simp [Loss.plant, hpr, hl, hlp, hz, hp]⟩
  · intro m
    rcases hc : Member.cell db m with _ | c
    · exact Or.inl (by simp [Member.plant, hc])
    rcases hl : Cell.line db c with _ | l
    · exact Or.inl (by simp [Member.plant, hc, hl])
    rcases hlp : Line.loop db l with _ | lp
    · exact Or.inl (by simp [Member.plant, hc, hl, hlp])
    rcases hz : Loop.zone db lp with _ | z
    · exact Or.inl (by simp [Member.plant, hc, hl, hlp, hz])
    rcases hp : Zone.plant db z with _ | p
    · exact Or.inl (by simp [Member.plant, hc, hl, hlp, hz, hp])
    exact Or.inr ⟨c, l, lp, z, p, rfl, hl, hlp, hz, hp,
      by simp [Member.plant, hc, hl, hlp, hz, hp]⟩
  · intro a
    rcases hc : Attendance.working_cell db a with _ | c
    · exact Or.inl (by simp [Attendance.working_plant, hc])
    rcases hl : Cell.line db c with _ | l
    · exact Or.inl (by simp [Attendance.working_plant, hc, hl])
    rcases hlp : Line.loop db l with _ | lp
    · exact Or.inl (by simp [Attendance.working_plant, hc, hl, hlp])
    rcases hz : Loop.zone db lp with _ | z
    · exact Or.inl (by simp [Attendance.working_plant, hc, hl, hlp, hz])
    rcases hp : Zone.plant db z with _ | p
    · exact Or.inl (by simp [Attendance.working_plant, hc, hl, hlp, hz, hp])
    exact Or.inr ⟨c, l, lp, z, p, rfl, hl, hlp, hz, hp,
      by simp [Attendance.working_plant, hc, hl, hlp, hz, hp]⟩

/-- C2: the raw ancestry walk ignores soft-deletion: after soft-deleting an
intermediate Loop row, the raw walk from a still-live descendant Cell still
returns the (now deleted) Loop and still resolves the Plant above it. -/
theorem c2_raw_walk_ignores_soft_delete :
    ∀ (db : DB) (t : Nat) (c : Cell) (li : Nat) (l : Line) (lpi : Nat)
      (lp : Loop) (zi : Nat) (z : Zone) (pi2 : Nat) (p : Plant),
      c.line_id = some li → db.lines li = some l →
      l.loop_id = some lpi → db.loops lpi = some lp →
      lp.zone_id = some zi → db.zones zi = some z →
      z.plant_id = some pi2 → db.plants pi2 = some p →
      Cell.loop (softDeleteLoopAt db t lpi) c = some (Loop.softDelete t lp) ∧
      (Loop.softDelete t lp).is_deleted = true ∧
      Cell.plant (softDeleteLoopAt db t lpi) c = some p := by
  intro db t c li l lpi lp zi z pi2 p h1 h2 h3 h4 h5 h6 h7 h8
  refine ⟨?_, ?_, ?_⟩
  · simp [softDeleteLoopAt, h4, Cell.loop, Cell.line, Line.loop, updAt,
      h1, h2, h3]
  · simp only [Loop.softDelete, softDeleteTS]
    split <;> simp_all
  · have hz : (Loop.softDelete t lp).zone_id = some zi := by
      simpa [Loop.softDelete] using h5
    simp [softDeleteLoopAt, h4, Cell.plant, Cell.line, Line.loop, Loop.zone,
      Zone.plant, updAt, h1, h2, h3, hz, h6, h7, h8]

/-- C2 witness: soft-deleting loop 1 in the concrete store leaves the raw
walk from cell 1 returning the deleted loop and plant 1. -/
theorem c2_raw_walk_witness :
    Cell.loop (softDeleteLoopAt dbW 5 1) cellOne = some (Loop.softDelete 5 loopOne) ∧
    (Loop.softDelete 5 loopOne).is_deleted = true ∧
    Cell.plant (softDeleteLoopAt dbW 5 1) cellOne = some plantOne :=
  c2_raw_walk_ignores_soft_delete dbW 5 cellOne 1 lineOne 1 loopOne 1 zoneOne
    1 plantOne (by decide) (by decide) (by decide) (by decide) (by decide)
    (by decide) (by decide) (by decide)

/-- C3: the live walk stops with `unresolvedAt k` at the first hop whose
entity is marked deleted (hops 1..4 = Line, Loop, Zone, Plant), and on a
chain with no deletions it resolves the very Plant the raw walk returns. -/
theorem c3_live_walk_refines_raw :
    (∀ (db : DB) (c : Cell) (l : Line),
      Cell.line db c = some l → l.is_deleted = true →
      Cell.livePlant db c = WalkResult.unresolvedAt 1) ∧
    (∀ (db : DB) (c : Cell) (l : Line) (lp : Loop),
      Cell.line db c = some l → l.is_deleted = false →
      Line.loop db l = some lp → lp.is_deleted = true →
      Cell.livePlant db c = WalkResult.unresolvedAt 2) ∧
    (∀ (db : DB) (c : Cell) (l : Line) (lp : Loop) (z : Zone),
      Cell.line db c = some l → l.is_deleted = false →
      Line.loop db l = some lp → lp.is_deleted = false →
      Loop.zone db lp = some z → z.is_deleted = true →
      Cell.livePlant db c = WalkResult.unresolvedAt 3) ∧
    (∀ (db : DB) (c : Cell) (l : Line) (lp : Loop) (z : Zone) (p : Plant),
      Cell.line db c = some l → l.is_deleted = false →
      Line.loop db l = some lp → lp.is_deleted = false →
      Loop.zone db lp = some z → z.is_deleted = false →
      Zone.plant db z = some p → p.is_deleted = true →
      Cell.livePlant db c = WalkResult.unresolvedAt 4) ∧
    (∀ (db : DB) (c : Cell) (l : Line) (lp : Loop) (z : Zone) (p : Plant),
      Cell.line db c = some l → l.is_deleted = false →
      Line.loop db l = some lp → lp.is_deleted = false →
      Loop.zone db lp = some z → z.is_deleted = false →
      Zone.plant db z = some p → p.is_deleted = false →
      Cell.livePlant db c = WalkResult.resolved p ∧ Cell.plant db c = some p) := by
  refine ⟨?_, ?_, ?_, ?_, ?_⟩
  · intro db c l h1 h2
    simp [Cell.livePlant, h1, h2]
  · intro db c l lp h1 h2 h3 h4
    simp [Cell.livePlant, h1, h2, h3, h4]
  · intro db c l lp z h1 h2 h3 h4 h5 h6
    simp [Cell.livePlant, h1, h2, h3, h4, h5, h6]
  · intro db c l lp z p h1 h2 h3 h4 h5 h6 h7 h8
    simp [Cell.livePlant, h1, h2, h3, h4, h5, h6, h7, h8]
  · intro db c l lp z p h1 h2 h3 h4 h5 h6 h7 h8
    constructor
    · simp [Cell.livePlant, h1, h2, h3, h4, h5, h6, h7, h8]
    · simp [Cell.plant, h1, h3, h5, h7]

/-- C3 witness: on the deletion-free chain of the concrete store the live
walk from cell 1 resolves plant 1, the same Plant as the raw walk. -/
theorem c3_live_walk_witness :
    Cell.livePlant dbW cellOne = WalkResult.resolved plantOne ∧
    Cell.plant dbW cellOne = some plantOne :=
  c3_live_walk_refines_raw.2.2.2.2 dbW cellOne lineOne loopOne zoneOne
    plantOne (by decide) (by decide) (by decide) (by decide) (by decide)
    (by decide) (by decide) (by decide)

/-- C4: the audit invariant `is_deleted = true ↔ deleted_at ≠ none` holds on
a freshly created entity, is preserved by every single write operation, and
therefore holds after every sequence of write operations in any order. -/
theorem c4_audit_invariant :
    (∀ t : Nat, auditOk (newTS t)) ∧
    (∀ (m : TimestampMixin) (op : AuditOp),
      auditOk m → auditOk (applyAuditOp m op)) ∧
    (∀ (m : TimestampMixin) (ops : List AuditOp),
      auditOk m → auditOk (applyAuditOps m ops)) ∧
    (∀ (t : Nat) (ops : List AuditOp), auditOk (applyAuditOps (newTS t) ops)) := by
  have hnew : ∀ t : Nat, auditOk (newTS t) := by
    intro t
    simp [auditOk, newTS]
  have hop : ∀ (m : TimestampMixin) (op : AuditOp),
      auditOk m → auditOk (applyAuditOp m op) := by
    intro m op h
    cases op with
    | touch t => simpa [applyAuditOp, auditOk] using h
    | softDel t =>
      simp only [applyAuditOp, softDeleteTS]
      split
      · exact h
      · simp [auditOk]
  have hops : ∀ (ops : List AuditOp) (m : TimestampMixin),
      auditOk m → auditOk (applyAuditOps m ops) := by
    intro ops
    induction ops with
    | nil =>
      intro m h
      simpa [applyAuditOps] using h
    | cons op rest ih =>
      intro m h
      simpa [applyAuditOps] using ih _ (hop m op h)
  exact ⟨hnew, hop, fun m ops h => hops ops m h, fun t ops => hops ops _ (hnew t)⟩

/-- C4 witness: the invariant holds after a touch and a softDelete applied
to a freshly created entity. -/
theorem c4_audit_witness :
    auditOk (applyAuditOps (newTS 0) [AuditOp.touch 1, AuditOp.softDel 2]) :=
  c4_audit_invariant.2.2.1 (newTS 0) [AuditOp.touch 1, AuditOp.softDel 2]
    (by decide)

/-- C7: soft-deletion is permanent and monotonic: once `is_deleted` is true
no operation sequence clears it or changes `deleted_at`; a first
`softDelete()` on a live entity sets both fields exactly once; and a second
`softDelete()` is a no-op — the one policy all entity types share through
the single mixin operation. -/
theorem c7_soft_delete_monotonic :
    (∀ (m : TimestampMixin) (ops : List AuditOp), m.is_deleted = true →
      (applyAuditOps m ops).is_deleted = true ∧
      (applyAuditOps m ops).deleted_at = m.deleted_at) ∧
    (∀ (m : TimestampMixin) (t : Nat), m.is_deleted = false →
      (softDeleteTS t m).is_deleted = true ∧
      (softDeleteTS t m).deleted_at = some t) ∧
    (∀ (m : TimestampMixin) (t u : Nat),
      softDeleteTS u (softDeleteTS t m) = softDeleteTS t m) := by
  refine ⟨?_, ?_, ?_⟩
  · intro m ops
    induction ops generalizing m with
    | nil =>
      intro h
      exact ⟨by simpa [applyAuditOps] using h, by simp [applyAuditOps]⟩
    | cons op rest ih =>
      intro h
      have hstep : (applyAuditOp m op).is_deleted = true ∧
          (applyAuditOp m op).deleted_at = m.deleted_at := by
        cases op with
        | touch t => simp [applyAuditOp, h]
        | softDel t => simp [applyAuditOp, softDeleteTS, h]
      have hrest := ih (applyAuditOp m op) hstep.1
      refine ⟨by simpa [applyAuditOps] using hrest.1, ?_⟩
      calc (applyAuditOps m (op :: rest)).deleted_at
          = (applyAuditOps (applyAuditOp m op) rest).deleted_at := by
            simp [applyAuditOps]
        _ = (applyAuditOp m op).deleted_at := hrest.2
        _ = m.deleted_at := hstep.2
  · intro m t h
    simp [softDeleteTS, h]
  · intro m t u
    by_cases h : m.is_deleted <;> simp [softDeleteTS, h]

/-- C7 witness: a deleted entity stays deleted, with its original
`deleted_at`, across a later touch. -/
theorem c7_soft_delete_witness :
    (applyAuditOps ⟨0, 0, some 3, true⟩ [AuditOp.touch 9]).is_deleted = true ∧
    (applyAuditOps ⟨0, 0, some 3, true⟩ [AuditOp.touch 9]).deleted_at =
      (⟨0, 0, some 3, true⟩ : TimestampMixin).deleted_at :=
  c7_soft_delete_monotonic.1 ⟨0, 0, some 3, true⟩ [AuditOp.touch 9] (by decide)

/-- C5: the working-location ancestry of an Attendance is a function of the
working-cell chain only and the assigned-location ancestry is a function of
the member chain only — the two hop sequences never merge or fall back — and
in the concrete store an Attendance working under a different Plant than its
Member's home cell resolves the two plants to two different entities. -/
theorem c5_two_chains_independent :
    (∀ (db : DB) (a b : Attendance), a.working_cell_id = b.working_cell_id →
      Attendance.working_line db a = Attendance.working_line db b ∧
      Attendance.working_loop db a = Attendance.working_loop db b ∧
      Attendance.working_zone db a = Attendance.working_zone db b ∧
      Attendance.working_plant db a = Attendance.working_plant db b) ∧
    (∀ (db : DB) (a b : Attendance), a.member_id = b.member_id →
      Attendance.member_cell db a = Attendance.member_cell db b ∧
      Attendance.member_line db a = Attendance.member_line db b ∧
      Attendance.member_loop db a = Attendance.member_loop db b ∧
      Attendance.member_zone db a = Attendance.member_zone db b ∧
      Attendance.member_plant db a = Attendance.member_plant db b) ∧
    (∃ (db : DB) (a : Attendance) (p q : Plant),
      Attendance.working_plant db a = some p ∧
      Attendance.member_plant db a = some q ∧ p ≠ q) := by
  refine ⟨?_, ?_, ?_⟩
  · intro db a b h
    refine ⟨?_, ?_, ?_, ?_⟩ <;>
      simp [Attendance.working_line, Attendance.working_loop,
        Attendance.working_zone, Attendance.working_plant,
        Attendance.working_cell, h]
  · intro db a b h
    refine ⟨?_, ?_, ?_, ?_, ?_⟩ <;>
      simp [Attendance.member_cell, Attendance.member_line,
        Attendance.member_loop, Attendance.member_zone,
        Attendance.member_plant, Attendance.member, h]
  · exact ⟨dbW, attW, plantTwo, plantOne, by decide, by decide, by decide⟩

/-- C5 witness: two attendances sharing a working cell resolve the same
working plant regardless of their member references. -/
theorem c5_two_chains_witness :
    Attendance.working_plant dbW attW = Attendance.working_plant dbW attV :=
  (c5_two_chains_independent.1 dbW attW attV rfl).2.2.2

/-- C6: after reparenting a Zone to a different Plant, the raw walk from
every Cell under that Zone resolves the new Plant on the next call, and no
row of any descendant table (loops, lines, cells) is written or changed. -/
theorem c6_reparent_zone_propagates :
    ∀ (db : DB) (t zid pid2 : Nat) (z : Zone) (c : Cell) (li : Nat) (l : Line)
      (lpi : Nat) (lp : Loop) (p2 : Plant),
      db.zones zid = some z →
      c.line_id = some li → db.lines li = some l →
      l.loop_id = some lpi → db.loops lpi = some lp →
      lp.zone_id = some zid →
      db.plants pid2 = some p2 →
      Cell.plant (reparentZoneAt db t zid pid2) c = some p2 ∧
      (reparentZoneAt db t zid pid2).loops = db.loops ∧
      (reparentZoneAt db t zid pid2).lines = db.lines ∧
      (reparentZoneAt db t zid pid2).cells = db.cells := by
  intro db t zid pid2 z c li l lpi lp p2 hz h1 h2 h3 h4 h5 h6
  refine ⟨?_, ?_, ?_, ?_⟩
  · simp [reparentZoneAt, hz, Cell.plant, Cell.line, Line.loop, Loop.zone,
      Zone.plant, reparentZoneRow, updAt, h1, h2, h3, h4, h5, h6]
  · simp [reparentZoneAt, hz]
  · simp [reparentZoneAt, hz]
  · simp [reparentZoneAt, hz]

/-- C6 witness: reparenting zone 1 under plant 2 makes cell 1 resolve
plant 2 while the loop, line and cell tables are untouched. -/
theorem c6_reparent_zone_witness :
    Cell.plant (reparentZoneAt dbW 9 1 2) cellOne = some plantTwo ∧
    (reparentZoneAt dbW 9 1 2).loops = dbW.loops ∧
    (reparentZoneAt dbW 9 1 2).lines = dbW.lines ∧
    (reparentZoneAt dbW 9 1 2).cells = dbW.cells :=
  c6_reparent_zone_propagates dbW 9 1 2 zoneOne cellOne 1 lineOne 1 loopOne
    plantTwo (by decide) (by decide) (by decide) (by decide) (by decide)
    (by decide) (by decide)

/-- C8: creation with a missing, nonexistent or soft-deleted required
parent/foreign reference is reported as the corresponding ValidationFailure
and never produces a store (the instance is not created): shown for the
Zone's plant, and for every required reference of a Production (line, shift,
planner) and of a Loss (production, loss reason) through the one shared
reference check; an hour value outside the twelve fixed slots and any
negative numeric field (plan, achievement, scraps, defects, flash, loss
amount) are likewise reported ValidationFailures. -/
theorem c8_creation_validation :
    (∀ (db : DB) (t i : Nat) (nm : String),
      createZone db t i nm none = Except.error ValidationFailure.missingParent) ∧
    (∀ (db : DB) (t i : Nat) (nm : String) (p : Nat), db.plants p = none →
      createZone db t i nm (some p) = Except.error ValidationFailure.unknownParent) ∧
    (∀ (db : DB) (t i : Nat) (nm : String) (p : Nat) (pl : Plant),
      db.plants p = some pl → pl.is_deleted = true →
      createZone db t i nm (some p) = Except.error ValidationFailure.deletedParent) ∧
    (∀ (κ β : Type) (tab : κ → Option β) (del : β → Bool),
      refFailure tab del none = some ValidationFailure.missingParent ∧
      (∀ k, tab k = none →
        refFailure tab del (some k) = some ValidationFailure.unknownParent) ∧
      (∀ k v, tab k = some v → del v = true →
        refFailure tab del (some k) = some ValidationFailure.deletedParent) ∧
      (∀ k v, tab k = some v → del v = false →
        refFailure tab del (some k) = none)) ∧
    (∀ (db : DB) (t i : Nat) (plan achievement scraps defects flash : Int)
      (hr : String) (lid sid : Option Nat) (plid tlid : Option String),
      (plan < 0 ∨ achievement < 0 ∨ scraps < 0 ∨ defects < 0 ∨ flash < 0) →
      createProduction db t i plan achievement scraps defects flash hr lid sid plid tlid =
        Except.error ValidationFailure.negativeField) ∧
    (∀ (db : DB) (t i : Nat) (plan achievement scraps defects flash : Int)
      (hr : String) (lid sid : Option Nat) (plid tlid : Option String),
      0 ≤ plan → 0 ≤ achievement → 0 ≤ scraps → 0 ≤ defects → 0 ≤ flash →
      hourSlots.contains hr = false →
      createProduction db t i plan achievement scraps defects flash hr lid sid plid tlid =
        Except.error ValidationFailure.invalidEnumValue) ∧
    (∀ (db : DB) (t i : Nat) (plan achievement scraps defects flash : Int)
      (hr : String) (lid sid : Option Nat) (plid tlid : Option String)
      (e : ValidationFailure),
      0 ≤ plan → 0 ≤ achievement → 0 ≤ scraps → 0 ≤ defects → 0 ≤ flash →
      hourSlots.contains hr = true →
      refFailure db.lines (fun l => l.is_deleted) lid = some e →
      createProduction db t i plan achievement scraps defects flash hr lid sid plid tlid =
        Except.error e) ∧
    (∀ (db : DB) (t i : Nat) (plan achievement scraps defects flash : Int)
      (hr : String) (lid sid : Option Nat) (plid tlid : Option String)
      (e : ValidationFailure),
      0 ≤ plan → 0 ≤ achievement → 0 ≤ scraps → 0 ≤ defects → 0 ≤ flash →
      hourSlots.contains hr = true →
      refFailure db.lines (fun l => l.is_deleted) lid = none →
      refFailure db.shifts (fun s => s.is_deleted) sid = some e →
      createProduction db t i plan achievement scraps defects flash hr lid sid plid tlid =
        Except.error e) ∧
    (∀ (db : DB) (t i : Nat) (plan achievement scraps defects flash : Int)
      (hr : String) (lid sid : Option Nat) (plid tlid : Option String)
      (e : ValidationFailure),
      0 ≤ plan → 0 ≤ achievement → 0 ≤ scraps → 0 ≤ defects → 0 ≤ flash →
      hourSlots.contains hr = true →
      refFailure db.lines (fun l => l.is_deleted) lid = none →
      refFailure db.shifts (fun s => s.is_deleted) sid = none →
      refFailure db.planners (fun pl => pl.is_deleted) plid = some e →
      createProduction db t i plan achievement scraps defects flash hr lid sid plid tlid =
        Except.error e) ∧
    (∀ (db : DB) (t i : Nat) (amount : Int) (reasonId prodId : Option Nat),
      amount < 0 →
      createLoss db t i amount reasonId prodId =
        Except.error ValidationFailure.negativeField) ∧
    (∀ (db : DB) (t i : Nat) (amount : Int) (reasonId prodId : Option Nat)
      (e : ValidationFailure),
      0 ≤ amount →
      refFailure db.productions (fun pr => pr.is_deleted) prodId = some e →
      createLoss db t i amount reasonId prodId = Except.error e) ∧
    (∀ (db : DB) (t i : Nat) (amount : Int) (reasonId prodId : Option Nat)
      (e : ValidationFailure),
      0 ≤ amount →
      refFailure db.productions (fun pr => pr.is_deleted) prodId = none →
      refFailure db.loss_reasons (fun r => r.is_deleted) reasonId = some e →
      createLoss db t i amount reasonId prodId = Except.error e) ∧
    (∀ (db : DB) (t i : Nat) (nm : String) (pid : Option Nat)
      (e : ValidationFailure) (db2 : DB),
      createZone db t i nm pid = Except.error e →
      createZone db t i nm pid ≠ Except.ok db2) ∧
    (∀ (db : DB) (t i : Nat) (plan achievement scraps defects flash : Int)
      (hr : String) (lid sid : Option Nat) (plid tlid : Option String)
      (e : ValidationFailure) (db2 : DB),
      createProduction db t i plan achievement scraps defects flash hr lid sid plid tlid =
        Except.error e →
      createProduction db t i plan achievement scraps defects flash hr lid sid plid tlid ≠
        Except.ok db2) ∧
    (∀ (db : DB) (t i : Nat) (amount : Int) (reasonId prodId : Option Nat)
      (e : ValidationFailure) (db2 : DB),
      createLoss db t i amount reasonId prodId = Except.error e →
      createLoss db t i amount reasonId prodId ≠ Except.ok db2) := by
  refine ⟨?_, ?_, ?_, ?_, ?_, ?_, ?_, ?_, ?_, ?_, ?_, ?_, ?_, ?_, ?_⟩
  · intro db t i nm
    simp [createZone]
  · intro db t i nm p h
    simp [createZone, h]
  · intro db t i nm p pl h1 h2
    simp [createZone, h1, h2]
  · intro κ β tab del
    refine ⟨by simp [refFailure], ?_, ?_, ?_⟩
    · intro k h
      simp [refFailure, h]
    · intro k v h1 h2
      simp [refFailure, h1, h2]
    · intro k v h1 h2
      simp [refFailure, h1, h2]
  · intro db t i plan achievement scraps defects flash hr lid sid plid tlid h
    rcases h with h | h | h | h | h <;> simp [createProduction, h]
  · intro db t i plan achievement scraps defects flash hr lid sid plid tlid
      h1 h2 h3 h4 h5 hhr
    have hhr2 : hr ∉ hourSlots := by simpa using hhr
    simp [createProduction, not_lt.mpr h1, not_lt.mpr h2, not_lt.mpr h3,
      not_lt.mpr h4, not_lt.mpr h5, hhr2]
  · intro db t i plan achievement scraps defects flash hr lid sid plid tlid e
      h1 h2 h3 h4 h5 hhr hline
    have hhr2 : hr ∈ hourSlots := by simpa using hhr
    simp [createProduction, not_lt.mpr h1, not_lt.mpr h2, not_lt.mpr h3,
      not_lt.mpr h4, not_lt.mpr h5, hhr2, hline]
  · intro db t i plan achievement scraps defects flash hr lid sid plid tlid e
      h1 h2 h3 h4 h5 hhr hline hshift
    have hhr2 : hr ∈ hourSlots := by simpa using hhr
    simp [createProduction, not_lt.mpr h1, not_lt.mpr h2, not_lt.mpr h3,
      not_lt.mpr h4, not_lt.mpr h5, hhr2, hline, hshift]
  · intro db t i plan achievement scraps defects flash hr lid sid plid tlid e
      h1 h2 h3 h4 h5 hhr hline hshift hplanner
    have hhr2 : hr ∈ hourSlots := by simpa using hhr
    simp [createProduction, not_lt.mpr h1, not_lt.mpr h2, not_lt.mpr h3,
      not_lt.mpr h4, not_lt.mpr h5, hhr2, hline, hshift, hplanner]
  · intro db t i amount reasonId prodId h
    simp [createLoss, h]
  · intro db t i amount reasonId prodId e h hprod
    simp [createLoss, not_lt.mpr h, hprod]
  · intro db t i amount reasonId prodId e h hprod hreason
    simp [createLoss, not_lt.mpr h, hprod, hreason]
  · intro db t i nm pid e db2 h
    simp [h]
  · intro db t i plan achievement scraps defects flash hr lid sid plid tlid e db2 h
    simp [h]
  · intro db t i amount reasonId prodId e db2 h
    simp [h]

/-- C8 witness: creating a Production whose required Shift reference is
missing is reported as missingParent even though every other check passes. -/
theorem c8_creation_witness :
    createProduction dbW 0 5 1 2 3 0 4 "HOUR-01" (some 1) none none none =
      Except.error ValidationFailure.missingParent :=
  c8_creation_validation.2.2.2.2.2.2.2.1 dbW 0 5 1 2 3 0 4 "HOUR-01"
    (some 1) none none none ValidationFailure.missingParent (by decide)
    (by decide) (by decide) (by decide) (by decide) (by decide) (by decide)
    (by decide)

/-- C9: the hop-indexed walk Loss→Production→Line→Loop→Zone→Plant reports a
null mandatory reference found at hop k as `integrityViolation k`, an
outcome distinct from the ordinary `unresolvedAncestry` result. -/
theorem c9_integrity_violation_hop :
    (∀ (db : DB) (x : Loss), x.production_id = none →
      Loss.plantResolve db x = ResolveOutcome.integrityViolation 1) ∧
    (∀ (db : DB) (x : Loss) (pid : Nat) (pr : Production),
      x.production_id = some pid → db.productions pid = some pr →
      pr.line_id = none →
      Loss.plantResolve db x = ResolveOutcome.integrityViolation 2) ∧
    (∀ (db : DB) (x : Loss) (pid : Nat) (pr : Production) (li : Nat) (l : Line),
      x.production_id = some pid → db.productions pid = some pr →
      pr.line_id = some li → db.lines li = some l → l.loop_id = none →
      Loss.plantResolve db x = ResolveOutcome.integrityViolation 3) ∧
    (∀ (db : DB) (x : Loss) (pid : Nat) (pr : Production) (li : Nat) (l : Line)
      (lpi : Nat) (lp : Loop),
      x.production_id = some pid → db.productions pid = some pr →
      pr.line_id = some li → db.lines li = some l →
      l.loop_id = some lpi → db.loops lpi = some lp → lp.zone_id = none →
      Loss.plantResolve db x = ResolveOutcome.integrityViolation 4) ∧
    (∀ (db : DB) (x : Loss) (pid : Nat) (pr : Production) (li : Nat) (l : Line)
      (lpi : Nat) (lp : Loop) (zi : Nat) (z : Zone),
      x.production_id = some pid → db.productions pid = some pr →
      pr.line_id = some li → db.lines li = some l →
      l.loop_id = some lpi → db.loops lpi = some lp →
      lp.zone_id = some zi → db.zones zi = some z → z.plant_id = none →
      Loss.plantResolve db x = ResolveOutcome.integrityViolation 5) ∧
    (∀ k j : Nat, (ResolveOutcome.integrityViolation k : ResolveOutcome Plant) ≠
      ResolveOutcome.unresolvedAncestry j) := by
  refine ⟨?_, ?_, ?_, ?_, ?_, ?_⟩
  · intro db x h
    simp [Loss.plantResolve, h]
  · intro db x pid pr h1 h2 h3
    simp [Loss.plantResolve, h1, h2, h3]
  · intro db x pid pr li l h1 h2 h3 h4 h5
    simp [Loss.plantResolve, h1, h2, h3, h4, h5]
  · intro db x pid pr li l lpi lp h1 h2 h3 h4 h5 h6 h7
    simp [Loss.plantResolve, h1, h2, h3, h4, h5, h6, h7]
  · intro db x pid pr li l lpi lp zi z h1 h2 h3 h4 h5 h6 h7 h8 h9
    simp [Loss.plantResolve, h1, h2, h3, h4, h5, h6, h7, h8, h9]
  · intro k j h
    cases h

/-- C9 witness: the loss whose production reference is null resolves to an
integrity violation at hop 1. -/
theorem c9_integrity_violation_witness :
    Loss.plantResolve dbW lossNoProd = ResolveOutcome.integrityViolation 1 :=
  c9_integrity_violation_hop.1 dbW lossNoProd rfl

end PT
